import Mathlib

/-!
Verification development for the flames_backend repository.

The development shallowly embeds the three programs of the repository:

* src/api/main.py — the incident state machine (upsert_fire_incident),
  the manual resolution endpoint (resolve_incident) and the
  notify-new-data endpoint;
* src/worker/ai_inference.py — the classification worker message handler
  (on_message), modelled as the list of externally visible effects it
  performs for one envelope;
* src/rpi-to-mqtt/rpi-mqtt.py — the radio gateway receive loop, modelled
  as the list of effects of one loop iteration, together with the pure
  register transforms rssi_dbm and snr_db.

Timestamps are modelled as natural numbers standing for the formatted
local-time strings the code passes around; sensor values and confidences
are modelled as rationals; fallible dictionary lookups are modelled as
Option values.
-/

/-- One row of the fire_incidents table as written by src/api/main.py:
identity, node and gateway ids, last classification, sensor snapshot,
lifecycle status ("active" or "resolved") and timestamps. -/
structure IncidentRow where
  id : Nat
  node_id : String
  gateway_id : Option String
  ai_prediction : String
  confidence : ℚ
  temperature : Option ℚ
  humidity : Option ℚ
  flame : Option ℚ
  smoke : Option ℚ
  latitude : Option ℚ
  longitude : Option ℚ
  status : String
  started_at : Nat
  last_updated_at : Nat
  resolved_at : Option Nat
  notes : Option String
deriving DecidableEq, Repr

/-- The reading dict handed to upsert_fire_incident (src/api/main.py
lines 175-242).  Optional fields mirror the dict.get lookups of the
source; local_timestamp models the value reading.get("local_timestamp"),
whose absence makes the code fall back to the current clock. -/
structure Reading where
  ai_prediction : Option String
  node_id : String
  gateway_id : Option String
  confidence : Option ℚ
  temperature : Option ℚ
  humidity : Option ℚ
  flame : Option ℚ
  smoke : Option ℚ
  latitude : Option ℚ
  longitude : Option ℚ
  local_timestamp : Option Nat
deriving DecidableEq, Repr

/-- The persisted fire_incidents table: its rows plus the auto-increment
counter used for the id of the next inserted row. -/
structure FireIncidentDB where
  rows : List IncidentRow
  nextId : Nat
deriving DecidableEq, Repr

/-- A table with no incident rows. -/
def emptyDB : FireIncidentDB := { rows := [], nextId := 0 }

/-- Model of the Python str.lower method (ASCII, as used on the
classification labels). -/
def pyLower (s : String) : String := String.mk (s.data.map Char.toLower)

/-- Model of the Python str.strip method: drop whitespace from both ends. -/
def pyStrip (s : String) : String :=
  String.mk (((s.data.dropWhile Char.isWhitespace).reverse.dropWhile
    Char.isWhitespace).reverse)

/-- Model of the Python str.startswith method. -/
def pyStartsWith (s pre : String) : Bool := pre.data.isPrefixOf s.data

/-- Model of the Python str.endswith method. -/
def pyEndsWith (s suf : String) : Bool := suf.data.reverse.isPrefixOf s.data.reverse

/-- Line 176 of src/api/main.py: pred = (reading.get("ai_prediction") or "").lower(). -/
def predOf (r : Reading) : String := pyLower (r.ai_prediction.getD "")

/-- Translation of upsert_fire_incident (src/api/main.py lines 175-242).
If the lowercased prediction is neither "fire" nor "false", every active
row of the node is set to resolved with resolved_at stamped (an unbounded
UPDATE).  Otherwise the code selects one active row of the node
(LIMIT 1): if one exists it is updated in place by id (status and
started_at untouched), else a fresh active row is inserted with
started_at = last_updated_at = now.  The clock argument models
datetime.now, used only when the reading carries no local_timestamp. -/
def upsert_fire_incident (clock : Nat) (db : FireIncidentDB) (r : Reading) :
    FireIncidentDB :=
  let pred := predOf r
  let now := r.local_timestamp.getD clock
  if pred ≠ "fire" ∧ pred ≠ "false" then
    { db with rows := db.rows.map (fun row =>
        if row.node_id = r.node_id ∧ row.status = "active" then
          { row with status := "resolved", resolved_at := some now }
        else row) }
  else
    match db.rows.find? (fun row => row.node_id == r.node_id && row.status == "active") with
    | some existing =>
        { db with rows := db.rows.map (fun row =>
            if row.id = existing.id then
              { row with
                  ai_prediction := pred,
                  confidence := r.confidence.getD 0,
                  temperature := r.temperature,
                  humidity := r.humidity,
                  flame := r.flame,
                  smoke := r.smoke,
                  latitude := r.latitude,
                  longitude := r.longitude,
                  last_updated_at := now }
            else row) }
    | none =>
        { rows := db.rows ++
            [{ id := db.nextId,
               node_id := r.node_id,
               gateway_id := r.gateway_id,
               ai_prediction := pred,
               confidence := r.confidence.getD 0,
               temperature := r.temperature,
               humidity := r.humidity,
               flame := r.flame,
               smoke := r.smoke,
               latitude := r.latitude,
               longitude := r.longitude,
               status := "active",
               started_at := now,
               last_updated_at := now,
               resolved_at := none,
               notes := none }],
          nextId := db.nextId + 1 }

/-- Translation of the PATCH /incidents/id/resolve endpoint
(src/api/main.py lines 794-827).  The pair returned is the HTTP outcome
(error detail on failure) together with the table state after the
request: the endpoint raises before issuing any UPDATE when the incident
is missing or already resolved, so the table is returned unchanged in
those cases. -/
def resolve_incident (db : FireIncidentDB) (incident_id : Nat)
    (notes : Option String) (now : Nat) : Except String Unit × FireIncidentDB :=
  match db.rows.find? (fun row => row.id == incident_id) with
  | none => (Except.error "Incident not found", db)
  | some inc =>
      if inc.status = "resolved" then
        (Except.error "Incident is already resolved", db)
      else
        (Except.ok (), { db with rows := db.rows.map (fun row =>
            if row.id = incident_id then
              { row with status := "resolved", resolved_at := some now, notes := notes }
            else row) })

/-- Number of rows of the table that are active for the given node id. -/
def activeCount (n : String) : List IncidentRow → Nat
  | [] => 0
  | row :: rest =>
      (if row.node_id = n ∧ row.status = "active" then 1 else 0) + activeCount n rest

lemma activeCount_append (n : String) (l1 l2 : List IncidentRow) :
    activeCount n (l1 ++ l2) = activeCount n l1 + activeCount n l2 := by
  induction l1 with
  | nil => simp [activeCount]
  | cons a l ih => simp [activeCount, ih]; omega

lemma activeCount_map_eq (n : String) (f : IncidentRow → IncidentRow)
    (rows : List IncidentRow)
    (h : ∀ row, (((f row).node_id = n ∧ (f row).status = "active") ↔
      (row.node_id = n ∧ row.status = "active"))) :
    activeCount n (rows.map f) = activeCount n rows := by
  induction rows with
  | nil => rfl
  | cons a l ih =>
      simp only [List.map_cons, activeCount, ih]
      congr 1
      exact if_congr (h a) rfl rfl

lemma activeCount_map_zero (n : String) (f : IncidentRow → IncidentRow)
    (rows : List IncidentRow)
    (h : ∀ row ∈ rows, ¬ ((f row).node_id = n ∧ (f row).status = "active")) :
    activeCount n (rows.map f) = 0 := by
  induction rows with
  | nil => rfl
  | cons a l ih =>
      simp only [List.map_cons, activeCount]
      rw [if_neg (h a (List.mem_cons_self a l)), ih (fun row hr => h row (List.mem_cons_of_mem a hr))]

lemma activeCount_eq_zero_iff (n : String) (rows : List IncidentRow) :
    activeCount n rows = 0 ↔
      ∀ row ∈ rows, ¬ (row.node_id = n ∧ row.status = "active") := by
  induction rows with
  | nil => simp [activeCount]
  | cons a l ih =>
      simp only [activeCount, List.mem_cons]
      constructor
      · intro h row hr
        by_cases ha : a.node_id = n ∧ a.status = "active"
        · rw [if_pos ha] at h; omega
        · rw [if_neg ha] at h
          rcases hr with hr | hr
          · subst hr; exact ha
          · exact (ih.1 (by omega)) row hr
      · intro h
        rw [if_neg (h a (Or.inl rfl))]
        simpa using ih.2 (fun row hr => h row (Or.inr hr))

lemma find_active_none (n : String) (rows : List IncidentRow)
    (h : rows.find? (fun row => row.node_id == n && row.status == "active") = none) :
    activeCount n rows = 0 := by
  rw [List.find?_eq_none] at h
  rw [activeCount_eq_zero_iff]
  intro row hr hc
  exact h row hr (by simp [hc.1, hc.2])

lemma upsert_preserves_at_most_one_active (clock : Nat) (db : FireIncidentDB)
    (r : Reading) (n : String) (h : activeCount n db.rows ≤ 1) :
    activeCount n (upsert_fire_incident clock db r).rows ≤ 1 := by
  unfold upsert_fire_incident
  by_cases hp : predOf r ≠ "fire" ∧ predOf r ≠ "false"
  · rw [if_pos hp]
    by_cases hn : n = r.node_id
    · subst hn
      rw [activeCount_map_zero]
      · omega
      · intro row _
        by_cases hm : row.node_id = r.node_id ∧ row.status = "active"
        · rw [if_pos hm]
          rintro ⟨_, h2⟩
          simp at h2
        · rw [if_neg hm]
          exact hm
    · rw [activeCount_map_eq]
      · exact h
      · intro row
        by_cases hm : row.node_id = r.node_id ∧ row.status = "active"
        · rw [if_pos hm]
          simp only
          constructor
          · rintro ⟨h1, h2⟩
            simp at h2
          · rintro ⟨h1, _⟩
            exact absurd (h1.symm.trans hm.1) hn
        · rw [if_neg hm]
  · rw [if_neg hp]
    cases hfind : db.rows.find?
        (fun row => row.node_id == r.node_id && row.status == "active") with
    | none =>
        simp only [hfind, activeCount_append]
        have h0 := find_active_none r.node_id db.rows hfind
        by_cases hn : n = r.node_id
        · subst hn
          rw [h0]
          simp [activeCount]
        · have : activeCount n
              [{ id := db.nextId, node_id := r.node_id, gateway_id := r.gateway_id,
                 ai_prediction := predOf r, confidence := r.confidence.getD 0,
                 temperature := r.temperature, humidity := r.humidity,
                 flame := r.flame, smoke := r.smoke, latitude := r.latitude,
                 longitude := r.longitude, status := "active",
                 started_at := r.local_timestamp.getD clock,
                 last_updated_at := r.local_timestamp.getD clock,
                 resolved_at := none, notes := none }] = 0 := by
            simp [activeCount]
            intro he
            exact absurd he.symm hn
          omega
    | some existing =>
        simp only [hfind]
        rw [activeCount_map_eq]
        · exact h
        · intro row
          by_cases hm : row.id = existing.id
          · rw [if_pos hm]
          · rw [if_neg hm]

/-- Sequential processing of a list of (clock, reading) steps through the
incident upsert. -/
def upsertAll (db : FireIncidentDB) (steps : List (Nat × Reading)) : FireIncidentDB :=
  steps.foldl (fun s p => upsert_fire_incident p.1 s p.2) db

lemma upsertAll_preserves_at_most_one_active (n : String)
    (steps : List (Nat × Reading)) :
    ∀ db : FireIncidentDB, activeCount n db.rows ≤ 1 →
      activeCount n (upsertAll db steps).rows ≤ 1 := by
  induction steps with
  | nil => intro db h; exact h
  | cons p rest ih =>
      intro db h
      exact ih _ (upsert_preserves_at_most_one_active p.1 db p.2 n h)

/-- C1: for every node id and every sequence of readings processed through
the incident upsert, starting from a table with no active incident for
that node, the table holds at most one row with status = "active" for
that node after the sequence (hence at every point of it, each point
being the end of a prefix). -/
theorem at_most_one_active_invariant (n : String) (db : FireIncidentDB)
    (steps : List (Nat × Reading)) (h : activeCount n db.rows = 0) :
    activeCount n (upsertAll db steps).rows ≤ 1 :=
  upsertAll_preserves_at_most_one_active n steps db (by omega)

lemma map_id_of_mem {α : Type _} (l : List α) (f : α → α) (h : ∀ a ∈ l, f a = a) :
    l.map f = l := by
  induction l with
  | nil => rfl
  | cons a t ih =>
      simp only [List.map_cons]
      rw [h a (List.mem_cons_self a t), ih (fun b hb => h b (List.mem_cons_of_mem a hb))]

/-- C10: a reading whose lowercased label is neither "fire" nor "false"
makes the upsert resolve every active row of its node in one unbounded
update: each such row reappears with status "resolved" and resolved_at
stamped, the node has zero active rows afterwards, and if it had none to
begin with the table is left unchanged. -/
theorem nonfire_resolves_all_actives (clock : Nat) (db : FireIncidentDB) (r : Reading)
    (h : predOf r ≠ "fire" ∧ predOf r ≠ "false") :
    activeCount r.node_id (upsert_fire_incident clock db r).rows = 0
    ∧ (∀ row ∈ db.rows, row.node_id = r.node_id → row.status = "active" →
        { row with status := "resolved",
                   resolved_at := some (r.local_timestamp.getD clock) } ∈
          (upsert_fire_incident clock db r).rows)
    ∧ (activeCount r.node_id db.rows = 0 → upsert_fire_incident clock db r = db) := by
  refine ⟨?_, ?_, ?_⟩
  · rw [upsert_fire_incident, if_pos h]
    apply activeCount_map_zero
    intro row _
    by_cases hm : row.node_id = r.node_id ∧ row.status = "active"
    · rw [if_pos hm]
      rintro ⟨_, h2⟩
      simp at h2
    · rw [if_neg hm]
      exact hm
  · intro row hr h1 h2
    rw [upsert_fire_incident, if_pos h]
    simp only [List.mem_map]
    exact ⟨row, hr, by rw [if_pos ⟨h1, h2⟩]⟩
  · intro h0
    rw [upsert_fire_incident, if_pos h]
    have hall := (activeCount_eq_zero_iff r.node_id db.rows).1 h0
    rw [map_id_of_mem _ _ (fun row hr => if_neg (hall row hr))]

/-- The reading produced by a "fire" classification for node N1 at time t
(concrete sensor values drawn from the simulate-fire endpoint). -/
def fireReading (t : Nat) : Reading :=
  { ai_prediction := some "fire", node_id := "N1", gateway_id := some "GW1",
    confidence := some (mkRat 95 100), temperature := some (mkRat 523 10), humidity := some 25,
    flame := some 1, smoke := some 920, latitude := none, longitude := none,
    local_timestamp := some t }

/-- The reading produced by a "normal" classification for node N1 at time t. -/
def normalReading (t : Nat) : Reading :=
  { ai_prediction := some "normal", node_id := "N1", gateway_id := some "GW1",
    confidence := some (mkRat 99 100), temperature := some (mkRat 245 10), humidity := some 61,
    flame := some 0, smoke := some 0, latitude := none, longitude := none,
    local_timestamp := some t }

/-- C2: for a node with no prior incident, the label sequence
fire, fire, normal yields exactly one incident row: created active with
started_at = last_updated_at = t1 on the first reading, updated in place
on the second (same id 0, last_updated_at advanced from t1 to t2, still a
single row), and resolved with resolved_at = t3 on the third. -/
theorem fire_fire_normal_lifecycle (t1 t2 t3 : Nat) (h12 : t1 < t2) :
    (upsertAll emptyDB [(0, fireReading t1)]).rows =
      [{ id := 0, node_id := "N1", gateway_id := some "GW1", ai_prediction := "fire",
         confidence := mkRat 95 100, temperature := some (mkRat 523 10), humidity := some 25,
         flame := some 1, smoke := some 920, latitude := none, longitude := none,
         status := "active", started_at := t1, last_updated_at := t1,
         resolved_at := none, notes := none }]
    ∧ (upsertAll emptyDB [(0, fireReading t1), (0, fireReading t2)]).rows =
      [{ id := 0, node_id := "N1", gateway_id := some "GW1", ai_prediction := "fire",
         confidence := mkRat 95 100, temperature := some (mkRat 523 10), humidity := some 25,
         flame := some 1, smoke := some 920, latitude := none, longitude := none,
         status := "active", started_at := t1, last_updated_at := t2,
         resolved_at := none, notes := none }]
    ∧ t1 < t2
    ∧ (upsertAll emptyDB [(0, fireReading t1), (0, fireReading t2), (0, normalReading t3)]).rows =
      [{ id := 0, node_id := "N1", gateway_id := some "GW1", ai_prediction := "fire",
         confidence := mkRat 95 100, temperature := some (mkRat 523 10), humidity := some 25,
         flame := some 1, smoke := some 920, latitude := none, longitude := none,
         status := "resolved", started_at := t1, last_updated_at := t2,
         resolved_at := some t3, notes := none }] :=
  ⟨rfl, rfl, h12, rfl⟩

theorem at_most_one_active_invariant_witness :
    activeCount "N1" emptyDB.rows = 0
    ∧ activeCount "N1"
        (upsertAll emptyDB
          [(0, fireReading 0), (1, fireReading 1), (2, normalReading 2)]).rows ≤ 1 :=
  ⟨rfl, at_most_one_active_invariant "N1" emptyDB
    [(0, fireReading 0), (1, fireReading 1), (2, normalReading 2)] rfl⟩

theorem fire_fire_normal_lifecycle_witness :
    (0 : Nat) < 1
    ∧ (upsertAll emptyDB [(0, fireReading 0), (0, fireReading 1), (0, normalReading 2)]).rows =
      [{ id := 0, node_id := "N1", gateway_id := some "GW1", ai_prediction := "fire",
         confidence := mkRat 95 100, temperature := some (mkRat 523 10), humidity := some 25,
         flame := some 1, smoke := some 920, latitude := none, longitude := none,
         status := "resolved", started_at := 0, last_updated_at := 1,
         resolved_at := some 2, notes := none }] :=
  ⟨by decide, (fire_fire_normal_lifecycle 0 1 2 (by decide)).2.2.2⟩

/-- C5: a manual resolve against a row that is already resolved fails with
the "already resolved" error and leaves the table — hence that row and its
resolved_at — exactly as it was, while a resolve against an active row
succeeds and rewrites exactly that row with status "resolved",
resolved_at = now and the supplied notes. -/
theorem resolve_incident_guard (db : FireIncidentDB) (i : Nat)
    (notes : Option String) (now : Nat) (inc : IncidentRow)
    (hfind : db.rows.find? (fun row => row.id == i) = some inc) :
    (inc.status = "resolved" →
      resolve_incident db i notes now = (Except.error "Incident is already resolved", db))
    ∧ (inc.status = "active" →
        (resolve_incident db i notes now).1 = Except.ok ()
        ∧ (resolve_incident db i notes now).2.rows = db.rows.map (fun row =>
            if row.id = i then
              { row with status := "resolved", resolved_at := some now, notes := notes }
            else row)) := by
  constructor
  · intro h
    unfold resolve_incident
    rw [hfind]
    simp only [if_pos h]
  · intro h
    have hne : inc.status ≠ "resolved" := by rw [h]; decide
    unfold resolve_incident
    rw [hfind]
    simp only [if_neg hne]
    exact ⟨trivial, trivial⟩

/-- An active incident row used to exercise the manual-resolve endpoint. -/
def activeRowW : IncidentRow :=
  { id := 0, node_id := "N1", gateway_id := some "GW1", ai_prediction := "fire",
    confidence := mkRat 95 100, temperature := none, humidity := none, flame := none,
    smoke := none, latitude := none, longitude := none, status := "active",
    started_at := 1, last_updated_at := 1, resolved_at := none, notes := none }

/-- An already-resolved incident row with a prior resolved_at value. -/
def resolvedRowW : IncidentRow :=
  { id := 1, node_id := "N2", gateway_id := some "GW1", ai_prediction := "fire",
    confidence := mkRat 9 10, temperature := none, humidity := none, flame := none,
    smoke := none, latitude := none, longitude := none, status := "resolved",
    started_at := 2, last_updated_at := 4, resolved_at := some 5, notes := none }

/-- A table holding one active and one resolved incident. -/
def dbW : FireIncidentDB := { rows := [activeRowW, resolvedRowW], nextId := 2 }

theorem resolve_incident_guard_witness :
    resolve_incident dbW 1 (some "done") 9 = (Except.error "Incident is already resolved", dbW)
    ∧ (resolve_incident dbW 0 (some "done") 9).1 = Except.ok ()
    ∧ (resolve_incident dbW 0 (some "done") 9).2.rows = dbW.rows.map (fun row =>
        if row.id = 0 then
          { row with status := "resolved", resolved_at := some (9 : Nat), notes := some "done" }
        else row) :=
  ⟨(resolve_incident_guard dbW 1 (some "done") 9 resolvedRowW rfl).1 rfl,
   ((resolve_incident_guard dbW 0 (some "done") 9 activeRowW rfl).2 rfl).1,
   ((resolve_incident_guard dbW 0 (some "done") 9 activeRowW rfl).2 rfl).2⟩

theorem nonfire_resolves_all_actives_witness :
    (predOf (normalReading 3) ≠ "fire" ∧ predOf (normalReading 3) ≠ "false")
    ∧ activeCount (normalReading 3).node_id
        (upsert_fire_incident 7 dbW (normalReading 3)).rows = 0 :=
  ⟨by decide, (nonfire_resolves_all_actives 7 dbW (normalReading 3) (by decide)).1⟩

/-- Sensor payload fields of an envelope as read by the worker
(src/worker/ai_inference.py lines 79-96): each field models the
corresponding payload.get lookup. -/
structure WPayload where
  node : Option String
  temp : Option ℚ
  hum : Option ℚ
  flame : Option ℚ
  smoke : Option ℚ
  lat : Option ℚ
  lon : Option ℚ
deriving DecidableEq, Repr

/-- Telemetry envelope as read by the worker: wrapper.get("gateway"),
wrapper.get("rssi"), wrapper.get("snr"), wrapper.get("received_at") and
the payload object. -/
structure WEnvelope where
  gateway : Option String
  rssi : Option ℚ
  snr : Option ℚ
  received_at : Option Nat
  payload : WPayload
deriving DecidableEq, Repr

/-- Row inserted into sensor_readings by the worker
(src/worker/ai_inference.py lines 119-134).  flame and smoke carry the
defaulted values (payload.get with default 0). -/
structure SensorReadingRow where
  gateway_id : String
  node_id : String
  timestamp : Option Nat
  local_timestamp : Option Nat
  temperature : Option ℚ
  humidity : Option ℚ
  flame : ℚ
  smoke : ℚ
  latitude : Option ℚ
  longitude : Option ℚ
  rssi : Option ℚ
  snr : Option ℚ
  ai_prediction : String
  confidence : ℚ
deriving DecidableEq, Repr

/-- Body of the incident_update POST built by the worker
(src/worker/ai_inference.py lines 151-160). -/
structure IncidentUpdateMsg where
  node_id : String
  ai_prediction : String
  confidence : ℚ
  timestamp : Option Nat
  latitude : Option ℚ
  longitude : Option ℚ
  gateway_id : String
deriving DecidableEq, Repr

/-- Body of the basic new-reading POST built by the worker
(src/worker/ai_inference.py lines 172-186). -/
structure NewReadingMsg where
  node_id : String
  gateway_id : String
  timestamp : Option Nat
  temperature : Option ℚ
  humidity : Option ℚ
  flame : ℚ
  smoke : ℚ
  latitude : Option ℚ
  longitude : Option ℚ
  rssi : Option ℚ
  snr : Option ℚ
  ai_prediction : String
  confidence : ℚ
deriving DecidableEq, Repr

/-- Externally visible operations of the backend.  The worker handler
emits the first four; the API layer can additionally broadcast to
websockets, run the incident upsert (the /dev/simulate endpoints) or
resolve an incident row (the manual-resolution endpoint). -/
inductive BackendEffect where
  | ensureGateway (g : String)
  | insertReading (row : SensorReadingRow)
  | postIncidentUpdate (m : IncidentUpdateMsg)
  | postNewReading (m : NewReadingMsg)
  | wsBroadcast (body : String)
  | upsertIncident (clock : Nat) (r : Reading)
  | resolveIncidentRow (incident_id : Nat)
deriving DecidableEq, Repr

/-- True on the two constructors that write the fire_incidents table. -/
def BackendEffect.isFireIncidentWrite : BackendEffect → Bool
  | .upsertIncident _ _ => true
  | .resolveIncidentRow _ => true
  | _ => false

/-- True on the incident_update notification. -/
def BackendEffect.isPostIncidentUpdate : BackendEffect → Bool
  | .postIncidentUpdate _ => true
  | _ => false

/-- Feature vector built by the worker (src/worker/ai_inference.py lines
101-102): a single DataFrame row [smoke, temp, flame, hum] under the
column names [smoke, temperature, flame, humidity]; flame and smoke are
read with default 0, temp and hum are passed through as read. -/
def featureVector (p : WPayload) : List (Option ℚ) :=
  [some (p.smoke.getD 0), p.temp, some (p.flame.getD 0), p.hum]

/-- Label tuple of the elif branch at src/worker/ai_inference.py line 144. -/
def normalLabels : List String := ["normal", "false", "no fire", "safe", "none"]

/-- Broadcast gate of the worker (src/worker/ai_inference.py lines
137-148): an incident_update is posted when the lowercased, stripped
label is "fire" with confidence at least 0.50, or one of the normal/safe
labels with confidence at least 0.70. -/
def shouldBroadcastIncident (label : String) (confidence : ℚ) : Bool :=
  if pyStrip (pyLower label) = "fire" ∧ mkRat 1 2 ≤ confidence then true
  else if pyStrip (pyLower label) ∈ normalLabels ∧ mkRat 7 10 ≤ confidence then true
  else false

/-- Effects performed by the worker message handler on_message
(src/worker/ai_inference.py lines 71-209) for one decoded envelope, in
program order.  A missing or empty gateway id or node id aborts the
handler with no effect.  The classifier (model, scaler, class list) is an
external asset, abstracted as the classify argument from feature vector
to (label, confidence). -/
def onMessageEffects (classify : List (Option ℚ) → String × ℚ)
    (env : WEnvelope) : List BackendEffect :=
  match env.gateway with
  | none => []
  | some g =>
    if g = "" then []
    else
      match env.payload.node with
      | none => []
      | some node =>
        if node = "" then []
        else
          let flame := env.payload.flame.getD 0
          let smoke := env.payload.smoke.getD 0
          let res := classify (featureVector env.payload)
          let label := res.1
          let conf := res.2
          [BackendEffect.ensureGateway g,
           BackendEffect.insertReading
             { gateway_id := g, node_id := node, timestamp := env.received_at,
               local_timestamp := env.received_at, temperature := env.payload.temp,
               humidity := env.payload.hum, flame := flame, smoke := smoke,
               latitude := env.payload.lat, longitude := env.payload.lon,
               rssi := env.rssi, snr := env.snr, ai_prediction := label,
               confidence := conf }]
          ++ (if shouldBroadcastIncident label conf then
                [BackendEffect.postIncidentUpdate
                  { node_id := node, ai_prediction := label, confidence := conf,
                    timestamp := env.received_at, latitude := env.payload.lat,
                    longitude := env.payload.lon, gateway_id := g }]
              else [])
          ++ [BackendEffect.postNewReading
                { node_id := node, gateway_id := g, timestamp := env.received_at,
                  temperature := env.payload.temp, humidity := env.payload.hum,
                  flame := flame, smoke := smoke, latitude := env.payload.lat,
                  longitude := env.payload.lon, rssi := env.rssi, snr := env.snr,
                  ai_prediction := label, confidence := conf }]

/-- Effects of the POST /notify-new-data endpoint (src/api/main.py lines
1028-1031): it broadcasts the received body to websocket clients and does
nothing else — in particular it never runs the incident upsert. -/
def notifyNewDataEffects (body : String) : List BackendEffect :=
  [BackendEffect.wsBroadcast body]

/-- C4 evaluation: for every envelope the worker processes — whatever the
classifier returns and however far the handler gets — it emits no
fire_incidents write at all: on_message never runs the incident upsert,
and the notify-new-data endpoint its POSTs reach only broadcasts.  The
upsert is reached solely through the dev simulation endpoints, so the
claim that each completed reading is fed into the incident state machine
fails on the code. -/
theorem worker_never_writes_fire_incidents
    (classify : List (Option ℚ) → String × ℚ) (env : WEnvelope) (body : String) :
    (onMessageEffects classify env).filter BackendEffect.isFireIncidentWrite = []
    ∧ (notifyNewDataEffects body).filter BackendEffect.isFireIncidentWrite = [] := by
  refine ⟨?_, rfl⟩
  obtain ⟨gw, r0, s0, t0, pl⟩ := env
  obtain ⟨nd, tp, hu, fl, sm, la, lo⟩ := pl
  cases gw with
  | none => rfl
  | some g =>
    by_cases hg : g = ""
    · simp [onMessageEffects, hg]
    · cases nd with
      | none => simp [onMessageEffects, hg]
      | some node =>
        by_cases hn : node = ""
        · simp [onMessageEffects, hg, hn]
        · by_cases hb : shouldBroadcastIncident
              (classify (featureVector ⟨some node, tp, hu, fl, sm, la, lo⟩)).1
              (classify (featureVector ⟨some node, tp, hu, fl, sm, la, lo⟩)).2 = true
          · simp [onMessageEffects, hg, hn, hb, List.filter_append, List.filter,
              BackendEffect.isFireIncidentWrite]
          · simp [onMessageEffects, hg, hn, hb, List.filter_append, List.filter,
              BackendEffect.isFireIncidentWrite]

/-- Classifier stub returning a high-confidence "normal" result. -/
def classifyNormal99 : List (Option ℚ) → String × ℚ := fun _ => ("normal", mkRat 99 100)

/-- An envelope for node N1 whose sensor values classify as normal. -/
def noopEnv : WEnvelope :=
  { gateway := some "GW1", rssi := some (-68), snr := some (mkRat 72 10), received_at := some 0,
    payload := { node := some "N1", temp := some (mkRat 245 10), hum := some 61,
                 flame := some 0, smoke := some 0, lat := none, lon := none } }

/-- The reading corresponding to noopEnv classified ("normal", 0.99). -/
def noopReading : Reading :=
  { ai_prediction := some "normal", node_id := "N1", gateway_id := some "GW1",
    confidence := some (mkRat 99 100), temperature := some (mkRat 245 10), humidity := some 61,
    flame := some 0, smoke := some 0, latitude := none, longitude := none,
    local_timestamp := some 0 }

/-- Whether processing the reading through upsert_fire_incident actually
transitions a row: the fire/false branch always creates or updates a row,
and the other branch issues an UPDATE that matches a row exactly when the
node holds an active row. -/
def upsertTransitions (db : FireIncidentDB) (r : Reading) : Bool :=
  if predOf r ≠ "fire" ∧ predOf r ≠ "false" then
    db.rows.any (fun row => row.node_id == r.node_id && row.status == "active")
  else true

/-- C3 counterexample: a high-confidence "normal" reading for a node with
no incident row at all makes the worker post an incident_update, even
though the incident state machine performs no transition for that reading
— the upsert is a no-op on the empty table.  The claimed equivalence
between incident_update emission and actual row transitions is false. -/
theorem incident_update_on_noop_counterexample :
    ((onMessageEffects classifyNormal99 noopEnv).any BackendEffect.isPostIncidentUpdate = true)
    ∧ upsertTransitions emptyDB noopReading = false
    ∧ upsert_fire_incident 0 emptyDB noopReading = emptyDB := by
  refine ⟨?_, rfl, rfl⟩
  decide

lemma shouldBroadcastIncident_iff (label : String) (c : ℚ) :
    shouldBroadcastIncident label c = true ↔
      ((pyStrip (pyLower label) = "fire" ∧ mkRat 1 2 ≤ c)
       ∨ (pyStrip (pyLower label) ∈ normalLabels ∧ mkRat 7 10 ≤ c)) := by
  unfold shouldBroadcastIncident
  split_ifs with h1 h2
  · simp only [true_iff]
    exact Or.inl h1
  · simp only [true_iff]
    exact Or.inr h2
  · simp only [false_iff]
    rintro (hc | hc)
    · exact h1 hc
    · exact h2 hc

/-- C3 amended: the worker posts an incident_update exactly when the
envelope passes the gateway and node presence checks and the
classification result passes the hard-coded label/confidence gate —
lowercased stripped label "fire" with confidence at least 0.50, or one of
the normal/safe labels with confidence at least 0.70 — independent of the
incident table state, so emission does not track row transitions. -/
theorem incident_update_gated_by_thresholds
    (classify : List (Option ℚ) → String × ℚ) (env : WEnvelope) :
    ((onMessageEffects classify env).any BackendEffect.isPostIncidentUpdate = true) ↔
      ((∃ g, env.gateway = some g ∧ g ≠ "")
        ∧ (∃ node, env.payload.node = some node ∧ node ≠ "")
        ∧ ((pyStrip (pyLower (classify (featureVector env.payload)).1) = "fire"
              ∧ mkRat 1 2 ≤ (classify (featureVector env.payload)).2)
           ∨ (pyStrip (pyLower (classify (featureVector env.payload)).1) ∈ normalLabels
              ∧ mkRat 7 10 ≤ (classify (featureVector env.payload)).2))) := by
  obtain ⟨gw, r0, s0, t0, pl⟩ := env
  obtain ⟨nd, tp, hu, fl, sm, la, lo⟩ := pl
  cases gw with
  | none => simp [onMessageEffects]
  | some g =>
    by_cases hg : g = ""
    · simp [onMessageEffects, hg]
    · cases nd with
      | none => simp [onMessageEffects, hg]
      | some node =>
        by_cases hn : node = ""
        · simp [onMessageEffects, hg, hn]
        · rw [← shouldBroadcastIncident_iff]
          by_cases hb : shouldBroadcastIncident
              (classify (featureVector ⟨some node, tp, hu, fl, sm, la, lo⟩)).1
              (classify (featureVector ⟨some node, tp, hu, fl, sm, la, lo⟩)).2 = true
          · simp [onMessageEffects, hg, hn, hb, List.any_append, List.any,
              BackendEffect.isPostIncidentUpdate]
          · simp [onMessageEffects, hg, hn, hb, List.any_append, List.any,
              BackendEffect.isPostIncidentUpdate]

/-- The payload of the spec's feature-order test vector:
smoke 920, temp 52.3, flame 1, hum 25. -/
def fvPayload920 : WPayload :=
  { node := some "N1", temp := some (mkRat 523 10), hum := some 25, flame := some 1,
    smoke := some 920, lat := none, lon := none }

/-- A payload carrying no sensor fields at all. -/
def fvPayloadMissing : WPayload :=
  { node := some "N1", temp := none, hum := none, flame := none, smoke := none,
    lat := none, lon := none }

/-- C8: the classifier input is the 4-vector [smoke, temperature, flame,
humidity] in exactly that order: for smoke 920, temp 52.3, flame 1,
hum 25 it is [920, 52.3, 1, 25]; missing flame and smoke default to 0
while missing temperature and humidity stay absent; and the handler
depends on the classifier only through its value on exactly this vector,
so this vector is what is handed to it. -/
theorem feature_vector_order :
    featureVector fvPayload920 = [some 920, some (mkRat 523 10), some 1, some 25]
    ∧ featureVector fvPayloadMissing = [some 0, none, some 0, none]
    ∧ (∀ (env : WEnvelope) (c1 c2 : List (Option ℚ) → String × ℚ),
        c1 (featureVector env.payload) = c2 (featureVector env.payload) →
        onMessageEffects c1 env = onMessageEffects c2 env) := by
  refine ⟨rfl, rfl, ?_⟩
  intro env c1 c2 h
  unfold onMessageEffects
  simp only [h]

/-- A classifier stub ignoring its input. -/
def classifyA : List (Option ℚ) → String × ℚ := fun _ => ("fire", 1)

/-- A classifier stub agreeing with classifyA exactly on the test vector. -/
def classifyB : List (Option ℚ) → String × ℚ := fun v =>
  if v = [some 920, some (mkRat 523 10), some 1, some 25] then ("fire", 1)
  else ("normal", 0)

/-- The envelope carrying the feature-order test payload. -/
def env920 : WEnvelope :=
  { gateway := some "GW1", rssi := some (-68), snr := some (mkRat 72 10),
    received_at := some 0, payload := fvPayload920 }

theorem feature_vector_order_witness :
    onMessageEffects classifyA env920 = onMessageEffects classifyB env920 :=
  feature_vector_order.2.2 env920 classifyA classifyB (by decide)

/-- IRQ flag masks of the SX1278 (src/rpi-to-mqtt/rpi-mqtt.py lines 56-58). -/
def IRQ_RX_DONE : Nat := 0x40

/-- Transmit-done IRQ mask. -/
def IRQ_TX_DONE : Nat := 0x08

/-- Payload-CRC-error IRQ mask. -/
def IRQ_PAYLOAD_CRC_ERROR : Nat := 0x20

/-- RSSI derivation (src/rpi-to-mqtt/rpi-mqtt.py lines 92-93): raw packet
RSSI register value minus the fixed offset 164. -/
def rssi_dbm (raw : Nat) : ℤ := (raw : ℤ) - 164

/-- SNR derivation (src/rpi-to-mqtt/rpi-mqtt.py lines 95-97): the raw
register byte is reinterpreted as two's complement — v - 256 when bit 7
is set — and divided by 4 (Python true division). -/
def snr_db (raw : Nat) : ℚ :=
  if raw &&& 0x80 ≠ 0 then ((raw : ℚ) - 256) / 4 else (raw : ℚ) / 4

/-- Decoded JSON values as produced by json.loads. -/
inductive Json where
  | null
  | bool (b : Bool)
  | num (q : ℚ)
  | str (s : String)
  | arr (elems : List Json)
  | obj (fields : List (String × Json))

/-- Python truthiness of a decoded JSON value, as tested by the
`if not node` guard. -/
def Json.truthy : Json → Bool
  | .null => false
  | .bool b => b
  | .num q => q != 0
  | .str s => s != ""
  | .arr elems => !elems.isEmpty
  | .obj fields => !fields.isEmpty

/-- The node lookup node_json.get("node") of the receive loop: key lookup
on an object; on a non-object value the Python attribute access raises
and the bare except clause drops the frame, which the model folds into
the none result. -/
def jsonGet : Json → String → Option Json
  | Json.obj fields, k => (fields.find? (fun kv => kv.1 == k)).map (fun kv => kv.2)
  | _, _ => none

/-- Gateway identity constant (src/rpi-to-mqtt/rpi-mqtt.py line 14). -/
def GATEWAY_ID : String := "GW1"

/-- The ACK frame content built by send_ack (line 119) for a string node. -/
def ackMessage (node : String) : String := "ACK:" ++ node

/-- The broker message wrapper built at lines 225-231. -/
structure GwEnvelope where
  gateway : String
  rssi : ℤ
  snr : ℚ
  received_at : Nat
  payload : Json

/-- Externally visible actions of one receive-loop iteration: IRQ
write-back, RF-metric capture, ACK transmission, broker publish. -/
inductive GwEffect where
  | clearIrq (flags : Nat)
  | captureMetrics (rssi : ℤ) (snr : ℚ) (ts : Nat)
  | sendAck (node : Json)
  | publish (env : GwEnvelope)

/-- True on the ACK transmission effect. -/
def GwEffect.isSendAck : GwEffect → Bool
  | .sendAck _ => true
  | _ => false

/-- True on the broker publish effect. -/
def GwEffect.isPublish : GwEffect → Bool
  | .publish _ => true
  | _ => false

/-- One iteration of the gateway receive loop (src/rpi-to-mqtt/rpi-mqtt.py
lines 176-237) as the list of its actions in program order.  Inputs: the
polled IRQ register value, the drained FIFO payload decoded to a string,
the raw RSSI and SNR register bytes, the current timestamp, and the
external json.loads as the parse argument.  Zero IRQ only sleeps; a
nonzero value is written back; a CRC error drops the frame; an RX-done
frame must be brace bounded, parse, and carry a truthy node field, after
which metrics are captured, the ACK is transmitted, and only then the
envelope is built and published. -/
def loopIterEffects (parse : String → Option Json) (irq : Nat) (raw : String)
    (rssiRaw snrRaw : Nat) (ts : Nat) : List GwEffect :=
  if irq = 0 then []
  else
    GwEffect.clearIrq irq ::
    (if irq &&& IRQ_PAYLOAD_CRC_ERROR ≠ 0 then []
     else if irq &&& IRQ_RX_DONE ≠ 0 then
       if pyStartsWith raw "\x7b" && pyEndsWith raw "\x7d" then
         match parse raw with
         | none => []
         | some j =>
           match jsonGet j "node" with
           | none => []
           | some node =>
             if node.truthy then
               [GwEffect.captureMetrics (rssi_dbm rssiRaw) (snr_db snrRaw) ts,
                GwEffect.sendAck node,
                GwEffect.publish { gateway := GATEWAY_ID, rssi := rssi_dbm rssiRaw,
                                   snr := snr_db snrRaw, received_at := ts,
                                   payload := j }]
             else []
       else []
     else [])

/-- C6: for a valid received frame — nonzero IRQ with RX-done set and the
CRC-error flag clear, a brace-bounded payload that parses to an object
with a truthy node — the iteration performs exactly: IRQ write-back,
metric capture, ACK transmission, envelope publish, in that order; in
particular the sendAck effect for the frame node occurs at a strictly
earlier position than the publish of the envelope built from that same
frame, so the acknowledgment is initiated before the relay and the
envelope is only published afterwards. -/
theorem ack_before_publish (parse : String → Option Json) (irq : Nat)
    (raw : String) (rssiRaw snrRaw ts : Nat) (j node : Json)
    (h0 : irq ≠ 0)
    (hcrc : irq &&& IRQ_PAYLOAD_CRC_ERROR = 0)
    (hrx : irq &&& IRQ_RX_DONE ≠ 0)
    (hb : (pyStartsWith raw "\x7b" && pyEndsWith raw "\x7d") = true)
    (hp : parse raw = some j)
    (hn : jsonGet j "node" = some node)
    (ht : node.truthy = true) :
    loopIterEffects parse irq raw rssiRaw snrRaw ts =
      [GwEffect.clearIrq irq,
       GwEffect.captureMetrics (rssi_dbm rssiRaw) (snr_db snrRaw) ts,
       GwEffect.sendAck node,
       GwEffect.publish { gateway := GATEWAY_ID, rssi := rssi_dbm rssiRaw,
                          snr := snr_db snrRaw, received_at := ts, payload := j }]
    ∧ ∃ i k : Nat, i < k
        ∧ (loopIterEffects parse irq raw rssiRaw snrRaw ts)[i]? =
            some (GwEffect.sendAck node)
        ∧ (loopIterEffects parse irq raw rssiRaw snrRaw ts)[k]? =
            some (GwEffect.publish { gateway := GATEWAY_ID, rssi := rssi_dbm rssiRaw,
                                     snr := snr_db snrRaw, received_at := ts,
                                     payload := j }) := by
  have he : loopIterEffects parse irq raw rssiRaw snrRaw ts =
      [GwEffect.clearIrq irq,
       GwEffect.captureMetrics (rssi_dbm rssiRaw) (snr_db snrRaw) ts,
       GwEffect.sendAck node,
       GwEffect.publish { gateway := GATEWAY_ID, rssi := rssi_dbm rssiRaw,
                          snr := snr_db snrRaw, received_at := ts, payload := j }] := by
    unfold loopIterEffects
    rw [if_neg h0, if_neg (not_not_intro hcrc), if_pos hrx, if_pos hb]
    simp only [hp, hn, ht, if_true]
  exact ⟨he, 2, 3, by omega, by rw [he]; rfl, by rw [he]; rfl⟩

/-- A parse stub standing in for json.loads on the test frame. -/
def testJson : Json := Json.obj [("node", Json.str "N1")]

/-- Parse function returning the test object for every input. -/
def testParse : String → Option Json := fun _ => some testJson

/-- A drained test payload bounded by braces. -/
def testRaw : String := "\x7b\x7d"

theorem ack_before_publish_witness :
    loopIterEffects testParse 0x40 testRaw 100 200 5 =
      [GwEffect.clearIrq 0x40,
       GwEffect.captureMetrics (rssi_dbm 100) (snr_db 200) 5,
       GwEffect.sendAck (Json.str "N1"),
       GwEffect.publish { gateway := GATEWAY_ID, rssi := rssi_dbm 100,
                          snr := snr_db 200, received_at := 5,
                          payload := testJson }] :=
  (ack_before_publish testParse 0x40 testRaw 100 200 5 testJson (Json.str "N1")
    (by decide) (by decide) (by decide) (by decide) rfl rfl rfl).1

/-- C7: a loop iteration whose IRQ flags include the CRC-error bit, or
whose drained payload is not brace bounded, or does not parse to an
object carrying a truthy node field, transmits no ACK and publishes no
envelope — at most the IRQ write-back happens and the frame is dropped. -/
theorem invalid_frame_sends_nothing (parse : String → Option Json) (irq : Nat)
    (raw : String) (rssiRaw snrRaw ts : Nat)
    (h : irq &&& IRQ_PAYLOAD_CRC_ERROR ≠ 0
      ∨ (pyStartsWith raw "\x7b" && pyEndsWith raw "\x7d") = false
      ∨ ¬ ∃ j node, parse raw = some j ∧ jsonGet j "node" = some node
            ∧ node.truthy = true) :
    ((loopIterEffects parse irq raw rssiRaw snrRaw ts).any GwEffect.isSendAck = false)
    ∧ ((loopIterEffects parse irq raw rssiRaw snrRaw ts).any GwEffect.isPublish = false) := by
  unfold loopIterEffects
  repeat' split
  all_goals try exact ⟨rfl, rfl⟩
  rename_i h0x hcrcx hrxx hbdx s1 jv hpx s2 nodev hnx htx
  exfalso
  rcases h with hc | hb2 | hnv
  · exact hcrcx hc
  · rw [hbdx] at hb2
    cases hb2
  · exact hnv ⟨jv, nodev, hpx, hnx, htx⟩

theorem invalid_frame_sends_nothing_witness :
    ((loopIterEffects testParse 0x60 testRaw 100 200 5).any GwEffect.isSendAck = false)
    ∧ ((loopIterEffects testParse 0x60 testRaw 100 200 5).any GwEffect.isPublish = false) :=
  invalid_frame_sends_nothing testParse 0x60 testRaw 100 200 5 (Or.inl (by decide))

set_option maxRecDepth 4000 in
/-- C9: snr_db reads the raw byte as a two's-complement value over the
fixed divisor 4: for every byte value it equals raw/4 below 128 and
(raw - 256)/4 from 128 upwards, and every value at or above half-range
yields a negative SNR. -/
theorem snr_twos_complement (v : Nat) (h : v < 256) :
    snr_db v = (if v < 128 then (v : ℚ) / 4 else ((v : ℚ) - 256) / 4)
    ∧ (128 ≤ v → snr_db v < 0) := by
  have hd : ∀ w : Nat, w < 256 → ((w &&& 0x80 ≠ 0) ↔ 128 ≤ w) := by decide
  constructor
  · unfold snr_db
    by_cases hge : 128 ≤ v
    · rw [if_pos ((hd v h).2 hge), if_neg (not_lt.2 hge)]
    · rw [if_neg (fun hne => hge ((hd v h).1 hne)), if_pos (not_le.1 hge)]
  · intro hge
    unfold snr_db
    rw [if_pos ((hd v h).2 hge)]
    have hv : (v : ℚ) < 256 := by exact_mod_cast h
    have hneg : (v : ℚ) - 256 < 0 := by linarith
    exact div_neg_of_neg_of_pos hneg (by norm_num)

theorem snr_twos_complement_witness :
    (snr_db 200 = if (200 : Nat) < 128 then ((200 : Nat) : ℚ) / 4
      else (((200 : Nat) : ℚ) - 256) / 4)
    ∧ (128 ≤ (200 : Nat) → snr_db 200 < 0) :=
  snr_twos_complement 200 (by decide)
